import Mathlib

/-!
Verification development for the apartment-tracker repository.

The two in-scope components are embedded shallowly:

* the listing store (`init_database` schema, `get_seen_listing_urls`,
  `save_listings` from `scraper.py`), modelled as a pure function on a
  list of table rows, with the SQLite UNIQUE constraint on the `url`
  column raising an error (`Except.error`) exactly when a non-NULL url
  is inserted that is already present, and with "commit only after the
  loop" modelled by the error result discarding every write of the call;
* the adaptive scheduler (`is_quiet_hours`, `get_next_interval`,
  `run_scraper_with_scheduling` from `main.py`), with the single
  `random.uniform` draw passed in as an explicit parameter and the
  browser-driven scrape cycle of `scrape_apartments` abstracted as an
  `Except`-valued outcome fed to its try/except wrapper.

Timestamps are opaque strings (Python stores `datetime.now().isoformat()`
strings), interval arithmetic uses rationals for Python floats and
integers for Python ints.
-/

namespace Tracker

/-- One raw listing record as produced by `extract_listings`: a Python
dict whose keys may be absent.  `none` models an absent key (and a key
present with value `None`, which `dict.get` treats the same way in every
access `save_listings` performs). -/
structure Listing where
  url : Option String := none
  title : Option String := none
  address : Option String := none
  price : Option String := none
  rooms : Option String := none
  area : Option String := none
  extra_costs : Option String := none
  wbs : Option String := none
  image_url : Option String := none
  raw_text : Option String := none
deriving DecidableEq

/-- One row of the SQLite `listings` table created by `init_database`
(`id` omitted: it is an autoincrement surrogate never read back).
`url` is nullable (`Option`); the other text columns are inserted with
`""` defaults by `save_listings`; `notified` has SQL default 0. -/
structure Row where
  url : Option String
  title : String
  address : String
  price : String
  rooms : String
  area : String
  extra_costs : String
  wbs : String
  image_url : String
  raw_text : String
  first_seen : String
  last_seen : String
  notified : Nat
deriving DecidableEq

/-- The identity resolution at the top of the `save_listings` loop:
`url = listing.get("url", "")`, and if that is falsy,
`url = listing.get("raw_text", "")[:100]`. -/
def resolveIdentity (l : Listing) : String :=
  let url := l.url.getD ""
  if url = "" then (l.raw_text.getD "").take 100 else url

/-- The row built by the INSERT statement of `save_listings`: note that
the `url` column receives `listing.get("url")` (the raw, possibly
absent value), not the resolved identity. -/
def insertRow (l : Listing) (now : String) : Row :=
  { url := l.url
    title := l.title.getD ""
    address := l.address.getD ""
    price := l.price.getD ""
    rooms := l.rooms.getD ""
    area := l.area.getD ""
    extra_costs := l.extra_costs.getD ""
    wbs := l.wbs.getD ""
    image_url := l.image_url.getD ""
    raw_text := l.raw_text.getD ""
    first_seen := now
    last_seen := now
    notified := 0 }

/-- The statement `UPDATE listings SET last_seen = ? WHERE url = ?`:
every row whose `url` equals the given string gets its `last_seen`
column replaced; SQL equality never matches a NULL `url`. -/
def updateLastSeen (db : List Row) (u : String) (now : String) : List Row :=
  db.map (fun r => if r.url = some u then { r with last_seen := now } else r)

/-- `get_seen_listing_urls`: `SELECT url FROM listings WHERE url IS NOT
NULL`, the set of non-NULL urls currently stored. -/
def get_seen_listing_urls (db : List Row) : List String :=
  db.filterMap Row.url

/-- The UNIQUE constraint on the `url` column from `init_database`: an
INSERT of a non-NULL url that some row of the current table already
carries raises sqlite3.IntegrityError; a NULL url never conflicts. -/
def insertConflict (db : List Row) (u : Option String) : Bool :=
  match u with
  | some v => decide (v ∈ get_seen_listing_urls db)
  | none => false

/-- The body of the `for listing in listings` loop of `save_listings`,
recursing over the remaining listings while threading the (uncommitted)
table state.  `seen` is the seen-set computed once before the loop and
never refreshed.  An INSERT violating the UNIQUE constraint raises,
modelled as `Except.error ()`. -/
def saveLoop (seen : List String) (now : String) :
    List Listing → List Row → Except Unit (List Row × List Listing)
  | [], db => Except.ok (db, [])
  | l :: rest, db =>
    let url := resolveIdentity l
    if url ∈ seen then
      saveLoop seen now rest (updateLastSeen db url now)
    else if insertConflict db l.url then
      Except.error ()
    else
      (saveLoop seen now rest (db ++ [insertRow l now])).map
        (fun p => (p.1, l :: p.2))

/-- `save_listings(listings)` against committed table state `db`, with
`now = datetime.now().isoformat()` passed explicitly.  On success it
returns the committed table together with the `new_listings` list; on an
uncaught IntegrityError the commit after the loop never runs, so the
committed state stays `db`. -/
def save_listings (db : List Row) (listings : List Listing) (now : String) :
    Except Unit (List Row × List Listing) :=
  saveLoop (get_seen_listing_urls db) now listings db

/-- Quiet-hours related configuration fields from `config.py`. -/
structure QuietConfig where
  enabled : Bool
  start_hour : Nat
  end_hour : Nat
deriving DecidableEq

/-- `is_quiet_hours()` from `main.py`, as a function of the
configuration and the wall-clock hour `datetime.now().hour`. -/
def is_quiet_hours (cfg : QuietConfig) (current_hour : Nat) : Bool :=
  if !cfg.enabled then false
  else if cfg.end_hour < cfg.start_hour then
    decide (cfg.start_hour ≤ current_hour) || decide (current_hour < cfg.end_hour)
  else
    decide (cfg.start_hour ≤ current_hour) && decide (current_hour < cfg.end_hour)

/-- Interval configuration fields from `config.py`:
`base = SCRAPE_INTERVAL_MINUTES`, `jitter = SCRAPE_INTERVAL_RANDOM_MINUTES`,
`base_new = SCRAPE_INTERVAL_NEW_LISTINGS_MINUTES`,
`jitter_new = SCRAPE_INTERVAL_NEW_LISTINGS_RANDOM_MINUTES`. -/
structure IntervalConfig where
  base : ℚ
  jitter : ℚ
  base_new : ℚ
  jitter_new : ℚ
deriving DecidableEq

/-- `get_next_interval(new_listings_found)` from `main.py`.  The single
`random.uniform(-jitter, jitter)` draw of the selected branch is passed
in as `random_variation`; theorems constrain it to the interval the
source draws from. -/
def get_next_interval (cfg : IntervalConfig) (new_listings_found : Bool)
    (random_variation : ℚ) : ℚ :=
  let base := if new_listings_found then cfg.base_new else cfg.base
  max 1 (base + random_variation)

/-- The quiet branch of `run_scraper_with_scheduling`: minutes until the
end of quiet hours, from the current hour and minute (Python int
arithmetic, hence `ℤ`). -/
def quiet_resume_interval (cfg : QuietConfig) (current_hour current_minute : Nat) : ℤ :=
  let hours_until_end : ℤ :=
    if cfg.end_hour < cfg.start_hour then
      if cfg.start_hour ≤ current_hour then
        (24 - (current_hour : ℤ)) + cfg.end_hour
      else
        (cfg.end_hour : ℤ) - current_hour
    else
      if current_hour < cfg.end_hour then
        (cfg.end_hour : ℤ) - current_hour
      else
        (24 - (current_hour : ℤ)) + cfg.end_hour
  max 1 (hours_until_end * 60 - current_minute + 5)

/-- `scrape_apartments()` seen through its outermost try/except: the
whole browser-driven cycle body is abstracted as `cycle`, either a
normally returned new-listings count or a raised exception; the except
clause logs and returns 0. -/
def scrape_apartments (cycle : Except String Nat) : Nat :=
  match cycle with
  | Except.ok n => n
  | Except.error _ => 0

/-- The configuration consumed by `run_scraper_with_scheduling`. -/
structure TrackerConfig where
  quiet : QuietConfig
  intervals : IntervalConfig

/-- `run_scraper_with_scheduling()` from `main.py`.  The first component
records whether the scrape cycle ran (false exactly when the quiet
branch returned early without extraction or notification); the second
is the returned interval in minutes. -/
def run_scraper_with_scheduling (cfg : TrackerConfig)
    (current_hour current_minute : Nat) (cycle : Except String Nat)
    (random_variation : ℚ) : Bool × ℚ :=
  if is_quiet_hours cfg.quiet current_hour then
    (false, ((quiet_resume_interval cfg.quiet current_hour current_minute : ℤ) : ℚ))
  else
    let new_listings_count := scrape_apartments cycle
    (true, get_next_interval cfg.intervals (decide (0 < new_listings_count)) random_variation)

/-- Default quiet-hours configuration from `config.py`:
`QUIET_HOURS_ENABLED = True`, `QUIET_HOURS_START = 21`,
`QUIET_HOURS_END = 8`. -/
def defaultQuiet : QuietConfig := ⟨true, 21, 8⟩

/-- Default interval configuration from `config.py`:
`SCRAPE_INTERVAL_MINUTES = 5`, `SCRAPE_INTERVAL_RANDOM_MINUTES = 3`,
`SCRAPE_INTERVAL_NEW_LISTINGS_MINUTES = 1`,
`SCRAPE_INTERVAL_NEW_LISTINGS_RANDOM_MINUTES = 0.5`. -/
def defaultIntervals : IntervalConfig := ⟨5, 3, 1, 1/2⟩

/-- Two table rows agree on every column except possibly `last_seen`:
the frame of the `UPDATE listings SET last_seen = ?` statement. -/
def agreesExceptLastSeen (r r' : Row) : Prop :=
  r'.url = r.url ∧ r'.title = r.title ∧ r'.address = r.address ∧
  r'.price = r.price ∧ r'.rooms = r.rooms ∧ r'.area = r.area ∧
  r'.extra_costs = r.extra_costs ∧ r'.wbs = r.wbs ∧
  r'.image_url = r.image_url ∧ r'.raw_text = r.raw_text ∧
  r'.first_seen = r.first_seen ∧ r'.notified = r.notified

/-- A listing with no url key, only raw text — the fallback-identity
case of `save_listings`. -/
def urllessListing : Listing := { raw_text := some "xyz" }

/-- A listing carrying a plain non-empty url. -/
def urlListing : Listing := { url := some "u1", title := some "title1" }

/-- A stored row for `urlListing`, first seen at time "t1". -/
def storedRow : Row := insertRow urlListing "t1"

end Tracker

namespace Tracker

/-- Claim C4: `is_quiet_hours`, as a function of the current hour `h`
and the configuration: if quiet hours are disabled it is false for every
`h`; if `start_hour > end_hour` it is true iff `h ≥ start_hour` or
`h < end_hour`; otherwise it is true iff `start_hour ≤ h < end_hour`;
and with start=21, end=8 (enabled) it is true exactly for
h ∈ {21,22,23,0,…,7} and false for h ∈ {8,…,20}. -/
theorem c4_is_quiet_hours_cases (cfg : QuietConfig) (h : Nat) :
    (cfg.enabled = false → is_quiet_hours cfg h = false) ∧
    (cfg.enabled = true → cfg.end_hour < cfg.start_hour →
      (is_quiet_hours cfg h = true ↔ (cfg.start_hour ≤ h ∨ h < cfg.end_hour))) ∧
    (cfg.enabled = true → cfg.start_hour ≤ cfg.end_hour →
      (is_quiet_hours cfg h = true ↔ (cfg.start_hour ≤ h ∧ h < cfg.end_hour))) ∧
    (∀ hh : Fin 24, is_quiet_hours ⟨true, 21, 8⟩ hh.val =
      decide (21 ≤ hh.val ∨ hh.val < 8)) := by
  refine ⟨?_, ?_, ?_, ?_⟩
  · intro he
    simp [is_quiet_hours, he]
  · intro he hlt
    simp [is_quiet_hours, he, hlt]
  · intro he hle
    have : ¬ cfg.end_hour < cfg.start_hour := Nat.not_lt.mpr hle
    simp [is_quiet_hours, he, this]
  · decide

/-- Witness for C4 at a concrete midnight-spanning instance. -/
theorem c4_is_quiet_hours_cases_witness :
    is_quiet_hours ⟨true, 21, 8⟩ 22 = true ↔ (21 ≤ 22 ∨ 22 < 8) :=
  (c4_is_quiet_hours_cases ⟨true, 21, 8⟩ 22).2.1 rfl (by decide)

/-- Claim C10: with quiet hours enabled and `QUIET_HOURS_START` equal to
`QUIET_HOURS_END`, `is_quiet_hours` is false at every hour: an equal
start/end configuration denotes an empty quiet window, never a 24-hour
one. -/
theorem c10_equal_start_end_never_quiet (s h : Nat) :
    is_quiet_hours ⟨true, s, s⟩ h = false := by
  simp [is_quiet_hours]

/-- Claim C6: for every outcome flag and every offset within the jitter
bound of the selected (base, jitter) pair, `get_next_interval` returns
`max 1 (base + offset)`, which is at least 1; and for `found_new = true`
with base 1 and jitter 1/2 the result lies in [1, 3/2]. -/
theorem c6_interval_bounds (cfg : IntervalConfig) (found : Bool) (draw : ℚ)
    (hlo : -(if found then cfg.jitter_new else cfg.jitter) ≤ draw)
    (hhi : draw ≤ (if found then cfg.jitter_new else cfg.jitter)) :
    get_next_interval cfg found draw =
      max 1 ((if found then cfg.base_new else cfg.base) + draw) ∧
    1 ≤ get_next_interval cfg found draw ∧
    (found = true → cfg.base_new = 1 → cfg.jitter_new = 1/2 →
      1 ≤ get_next_interval cfg found draw ∧
      get_next_interval cfg found draw ≤ 3/2) := by
  refine ⟨rfl, le_max_left _ _, ?_⟩
  intro hf hb hj
  subst hf
  refine ⟨le_max_left _ _, ?_⟩
  have hhi2 : draw ≤ 1/2 := by rw [hj] at hhi; simpa using hhi
  have h1 : (1 : ℚ) ≤ 3/2 := by norm_num
  have h2 : cfg.base_new + draw ≤ 3/2 := by rw [hb]; linarith
  exact max_le h1 h2

/-- Witness for C6 at the default new-listings pair and a concrete
draw. -/
theorem c6_interval_bounds_witness :
    get_next_interval defaultIntervals true (1/4) =
      max 1 ((if true then defaultIntervals.base_new else defaultIntervals.base) + 1/4) ∧
    1 ≤ get_next_interval defaultIntervals true (1/4) ∧
    (true = true → defaultIntervals.base_new = 1 → defaultIntervals.jitter_new = 1/2 →
      1 ≤ get_next_interval defaultIntervals true (1/4) ∧
      get_next_interval defaultIntervals true (1/4) ≤ 3/2) :=
  c6_interval_bounds defaultIntervals true (1/4) (by norm_num [defaultIntervals])
    (by norm_num [defaultIntervals])

/-- Counterexample to claim C7 as stated: with jitter 0 the result is
not always the configured base — with normal base 1/2 (half a minute)
the floor at 1 makes `get_next_interval` return 1, not 1/2. -/
theorem c7_base_below_one_counterexample :
    get_next_interval ⟨1/2, 0, 1, 0⟩ false 0 = 1 ∧ (1 : ℚ) ≠ 1/2 := by
  constructor
  · show max 1 ((1:ℚ)/2 + 0) = 1
    norm_num
  · norm_num

/-- Claim C7 (amended): with the selected jitter 0, so the single random
offset is 0, `get_next_interval` returns exactly the selected base
whenever that base is at least 1 (the source floors the result at 1). -/
theorem c7_zero_jitter_returns_base (cfg : IntervalConfig) (found : Bool)
    (hbase : 1 ≤ (if found then cfg.base_new else cfg.base)) :
    get_next_interval cfg found 0 = (if found then cfg.base_new else cfg.base) := by
  show max 1 ((if found then cfg.base_new else cfg.base) + 0) =
    (if found then cfg.base_new else cfg.base)
  rw [add_zero]
  exact max_eq_right hbase

/-- Witness for the amended C7 at the default configuration. -/
theorem c7_zero_jitter_returns_base_witness :
    get_next_interval defaultIntervals false 0 =
      (if false then defaultIntervals.base_new else defaultIntervals.base) :=
  c7_zero_jitter_returns_base defaultIntervals false (by norm_num [defaultIntervals])

/-- Claim C8: a raised exception during the scrape cycle is swallowed by
`scrape_apartments`, which returns 0; hence outside quiet hours
`run_scraper_with_scheduling` still returns normally, computing the next
interval with `new_listings_found = false`, i.e. from the normal
(base, jitter) pair. -/
theorem c8_error_treated_as_zero (cfg : TrackerConfig) (h m : Nat)
    (e : String) (draw : ℚ)
    (hq : is_quiet_hours cfg.quiet h = false) :
    scrape_apartments (Except.error e) = 0 ∧
    run_scraper_with_scheduling cfg h m (Except.error e) draw =
      (true, get_next_interval cfg.intervals false draw) := by
  refine ⟨rfl, ?_⟩
  unfold run_scraper_with_scheduling
  rw [hq]
  simp [scrape_apartments]

/-- Witness for C8 at the default configuration, 12:00. -/
theorem c8_error_treated_as_zero_witness :
    scrape_apartments (Except.error "boom") = 0 ∧
    run_scraper_with_scheduling ⟨defaultQuiet, defaultIntervals⟩ 12 0
        (Except.error "boom") 0 =
      (true, get_next_interval defaultIntervals false 0) :=
  c8_error_treated_as_zero ⟨defaultQuiet, defaultIntervals⟩ 12 0 "boom" 0 (by decide)

/-- Claim C5: when `is_quiet_hours` holds, `run_scraper_with_scheduling`
performs no scrape and returns `max 1 (hours_until_end*60 - minute + 5)`
minutes, where for a midnight-spanning window `hours_until_end` is
`(24 - hour) + end_hour` in the pre-midnight segment and
`end_hour - hour` in the post-midnight segment; concretely with the
default configuration (enabled, start 21, end 8) at 22:10 the returned
interval is 595 minutes. -/
theorem c5_quiet_branch (cfg : TrackerConfig) (h m : Nat)
    (cycle : Except String Nat) (draw : ℚ)
    (hq : is_quiet_hours cfg.quiet h = true) :
    (run_scraper_with_scheduling cfg h m cycle draw).1 = false ∧
    (cfg.quiet.end_hour < cfg.quiet.start_hour → cfg.quiet.start_hour ≤ h →
      (run_scraper_with_scheduling cfg h m cycle draw).2 =
        ((max 1 (((24 - (h : ℤ)) + cfg.quiet.end_hour) * 60 - m + 5) : ℤ) : ℚ)) ∧
    (cfg.quiet.end_hour < cfg.quiet.start_hour → h < cfg.quiet.start_hour →
      (run_scraper_with_scheduling cfg h m cycle draw).2 =
        ((max 1 (((cfg.quiet.end_hour : ℤ) - h) * 60 - m + 5) : ℤ) : ℚ)) ∧
    (∀ (cfg2 : TrackerConfig), cfg2.quiet = defaultQuiet →
      run_scraper_with_scheduling cfg2 22 10 cycle draw = (false, 595)) := by
  refine ⟨?_, ?_, ?_, ?_⟩
  · simp [run_scraper_with_scheduling, hq]
  · intro hspan hpre
    simp [run_scraper_with_scheduling, hq, quiet_resume_interval, hspan, hpre]
  · intro hspan hpost
    have hnot : ¬ cfg.quiet.start_hour ≤ h := Nat.not_le.mpr hpost
    simp [run_scraper_with_scheduling, hq, quiet_resume_interval, hspan, hnot]
  · intro cfg2 hcfg2
    unfold run_scraper_with_scheduling
    rw [hcfg2]
    norm_num [is_quiet_hours, defaultQuiet, quiet_resume_interval]

/-- Witness for C5 at the default configuration, 22:10. -/
theorem c5_quiet_branch_witness :
    (run_scraper_with_scheduling ⟨defaultQuiet, defaultIntervals⟩ 22 10
      (Except.ok 0) 0).1 = false :=
  (c5_quiet_branch ⟨defaultQuiet, defaultIntervals⟩ 22 10 (Except.ok 0) 0
    (by decide)).1

/-- An `Except.map` result is a success exactly when the mapped value
was. -/
theorem except_map_eq_ok {α β : Type} {f : α → β} {e : Except Unit α} {b : β} :
    e.map f = Except.ok b ↔ ∃ a, e = Except.ok a ∧ f a = b := by
  cases e <;> simp [Except.map]

/-- `updateLastSeen` rewrites rows pointwise. -/
theorem updateLastSeen_getElem (db : List Row) (u now : String) (i : Nat) :
    (updateLastSeen db u now)[i]? =
      db[i]?.map (fun r => if r.url = some u then { r with last_seen := now } else r) := by
  simp [updateLastSeen]

/-- The update statement touches at most the `last_seen` column. -/
theorem agrees_update (r : Row) (u now : String) :
    agreesExceptLastSeen r (if r.url = some u then { r with last_seen := now } else r) := by
  split <;> simp [agreesExceptLastSeen]

/-- Column-wise agreement except `last_seen` is transitive. -/
theorem agrees_trans {a b c : Row} (h1 : agreesExceptLastSeen a b)
    (h2 : agreesExceptLastSeen b c) : agreesExceptLastSeen a c := by
  obtain ⟨e1, e2, e3, e4, e5, e6, e7, e8, e9, e10, e11, e12⟩ := h1
  obtain ⟨f1, f2, f3, f4, f5, f6, f7, f8, f9, f10, f11, f12⟩ := h2
  exact ⟨f1.trans e1, f2.trans e2, f3.trans e3, f4.trans e4, f5.trans e5,
    f6.trans e6, f7.trans e7, f8.trans e8, f9.trans e9, f10.trans e10,
    f11.trans e11, f12.trans e12⟩

/-- Frame property of the `save_listings` loop: when the loop returns
normally, every row of the starting table is still present at its index,
unchanged except possibly in `last_seen`, and fully unchanged when its
url is not the resolved identity of any processed listing. -/
theorem saveLoop_frame (seen : List String) (now : String) :
    ∀ (ls : List Listing) (db db' : List Row) (news : List Listing),
      saveLoop seen now ls db = Except.ok (db', news) →
      ∀ (i : Nat) (r : Row), db[i]? = some r →
        ∃ r', db'[i]? = some r' ∧ agreesExceptLastSeen r r' ∧
          ((∀ l ∈ ls, r.url ≠ some (resolveIdentity l)) → r' = r) := by
  intro ls
  induction ls with
  | nil =>
    intro db db' news hok i r hr
    simp only [saveLoop, Except.ok.injEq, Prod.mk.injEq] at hok
    exact ⟨r, hok.1 ▸ hr, by simp [agreesExceptLastSeen], fun _ => rfl⟩
  | cons l ls ih =>
    intro db db' news hok i r hr
    simp only [saveLoop] at hok
    by_cases hu : resolveIdentity l ∈ seen
    · rw [if_pos hu] at hok
      have hr2 : (updateLastSeen db (resolveIdentity l) now)[i]? =
          some (if r.url = some (resolveIdentity l) then { r with last_seen := now } else r) := by
        rw [updateLastSeen_getElem, hr]
        rfl
      obtain ⟨r', hr', hag, hun⟩ := ih _ _ _ hok i _ hr2
      refine ⟨r', hr', agrees_trans (agrees_update r _ now) hag, ?_⟩
      intro hall
      have h1 : r.url ≠ some (resolveIdentity l) := hall l (List.mem_cons_self l ls)
      rw [if_neg h1] at hun
      exact hun (fun l' hl' => hall l' (List.mem_cons_of_mem l hl'))
    · rw [if_neg hu] at hok
      have hlt : i < db.length := by
        by_contra hge
        rw [List.getElem?_eq_none (Nat.le_of_not_lt hge)] at hr
        exact Option.noConfusion hr
      have hra : (db ++ [insertRow l now])[i]? = some r := by
        rw [List.getElem?_append, if_pos hlt]
        exact hr
      by_cases hc : insertConflict db l.url = true
      · rw [if_pos hc] at hok
        exact absurd hok (by simp)
      · rw [if_neg hc] at hok
        rw [except_map_eq_ok] at hok
        obtain ⟨⟨dbp, newsp⟩, hloop, hfb⟩ := hok
        have hdb' : db' = dbp := by
          have := congrArg Prod.fst hfb
          simpa using this.symm
        obtain ⟨r', hr', hag, hun⟩ := ih _ _ _ hloop i r hra
        subst hdb'
        exact ⟨r', hr', hag,
          fun hall => hun (fun l' hl' => hall l' (List.mem_cons_of_mem l hl'))⟩

/-- Claim C3: for every input record whose resolved identity already
exists in the store, `save_listings` modifies only the `last_seen`
column of that row — every pre-existing row survives at its index with
`url`, `title`, `address`, `price`, `rooms`, `area`, `extra_costs`,
`wbs`, `image_url`, `raw_text`, `first_seen` and `notified` unchanged —
and a row whose url is not the resolved identity of any input record is
not modified at all. -/
theorem c3_update_frame (db : List Row) (listings : List Listing) (now : String)
    (db' : List Row) (news : List Listing)
    (hok : save_listings db listings now = Except.ok (db', news)) :
    ∀ (i : Nat) (r : Row), db[i]? = some r →
      ∃ r', db'[i]? = some r' ∧ agreesExceptLastSeen r r' ∧
        ((∀ l ∈ listings, r.url ≠ some (resolveIdentity l)) → r' = r) :=
  saveLoop_frame (get_seen_listing_urls db) now listings db db' news hok

/-- Witness for C3: re-observing the stored row for `urlListing` at time
"t2" leaves every column but `last_seen` unchanged. -/
theorem c3_update_frame_witness :
    ∃ r', ([{ storedRow with last_seen := "t2" }] : List Row)[0]? = some r' ∧
      agreesExceptLastSeen storedRow r' ∧
      ((∀ l ∈ ([urlListing] : List Listing),
        storedRow.url ≠ some (resolveIdentity l)) → r' = storedRow) :=
  c3_update_frame [storedRow] [urlListing] "t2"
    [{ storedRow with last_seen := "t2" }] [] rfl 0 storedRow rfl

/-- The update statement never changes the set of stored urls. -/
theorem urls_updateLastSeen (db : List Row) (u now : String) :
    get_seen_listing_urls (updateLastSeen db u now) = get_seen_listing_urls db := by
  unfold get_seen_listing_urls updateLastSeen
  rw [List.filterMap_map]
  congr 1
  funext r
  simp only [Function.comp]
  split <;> rfl

/-- A freshly inserted row contributes its non-NULL url to the stored
url set. -/
theorem mem_urls_append_right (db : List Row) (row : Row) {v : String}
    (h : row.url = some v) :
    v ∈ get_seen_listing_urls (db ++ [row]) := by
  unfold get_seen_listing_urls
  rw [List.filterMap_append]
  apply List.mem_append_right
  simp [h]

/-- Inserting a row keeps every previously stored url stored. -/
theorem mem_urls_append_left (db : List Row) (row : Row) {v : String}
    (h : v ∈ get_seen_listing_urls db) :
    v ∈ get_seen_listing_urls (db ++ [row]) := by
  unfold get_seen_listing_urls at h ⊢
  rw [List.filterMap_append]
  exact List.mem_append_left _ h

/-- A non-empty url resolves to itself. -/
theorem resolveIdentity_of_url {l : Listing} {u : String} (h : l.url = some u)
    (hu : u ≠ "") : resolveIdentity l = u := by
  unfold resolveIdentity
  rw [h]
  simp [hu]

/-- If the table already carries a non-empty url `u` absent from the
seen-set, any later listing of the loop whose raw url is `u` is
classified as new and its INSERT hits the UNIQUE constraint, so the loop
raises. -/
theorem saveLoop_dup_error (seen : List String) (now u : String)
    (hu : u ≠ "") (hseen : u ∉ seen) :
    ∀ (ls : List Listing) (db : List Row),
      u ∈ get_seen_listing_urls db →
      (∃ l ∈ ls, l.url = some u) →
      saveLoop seen now ls db = Except.error () := by
  intro ls
  induction ls with
  | nil =>
    intro db _ hw
    obtain ⟨l, hl, _⟩ := hw
    exact absurd hl (List.not_mem_nil l)
  | cons l ls ih =>
    intro db hdb hw
    simp only [saveLoop]
    obtain ⟨l0, hl0mem, hl0url⟩ := hw
    rcases List.mem_cons.mp hl0mem with heq | htail
    · subst heq
      rw [resolveIdentity_of_url hl0url hu, if_neg hseen]
      have hc : insertConflict db l0.url = true := by
        rw [hl0url]
        simp [insertConflict, hdb]
      rw [if_pos hc]
    · by_cases hmem : resolveIdentity l ∈ seen
      · rw [if_pos hmem]
        refine ih (updateLastSeen db (resolveIdentity l) now) ?_ ⟨l0, htail, hl0url⟩
        rw [urls_updateLastSeen]
        exact hdb
      · rw [if_neg hmem]
        by_cases hc : insertConflict db l.url = true
        · rw [if_pos hc]
        · rw [if_neg hc]
          rw [ih (db ++ [insertRow l now]) (mem_urls_append_left db _ hdb)
            ⟨l0, htail, hl0url⟩]
          rfl

/-- Once the first record with a fresh non-empty url `u` is inserted,
the current table carries `u`, so a second record with the same url
makes the loop raise, whatever comes before, between or after them. -/
theorem saveLoop_dup_after (seen : List String) (now u : String)
    (hu : u ≠ "") (hseen : u ∉ seen) (a b : Listing) (mid post : List Listing)
    (ha : a.url = some u) (hb : b.url = some u) :
    ∀ (pre : List Listing) (db : List Row),
      saveLoop seen now (pre ++ a :: (mid ++ b :: post)) db = Except.error () := by
  intro pre
  induction pre with
  | nil =>
    intro db
    rw [List.nil_append]
    simp only [saveLoop]
    rw [resolveIdentity_of_url ha hu, if_neg hseen]
    by_cases hc : insertConflict db a.url = true
    · rw [if_pos hc]
    · rw [if_neg hc]
      rw [saveLoop_dup_error seen now u hu hseen (mid ++ b :: post)
        (db ++ [insertRow a now])
        (mem_urls_append_right db _ (show (insertRow a now).url = some u from ha))
        ⟨b, List.mem_append_right _ (List.mem_cons_self b post), hb⟩]
      rfl
  | cons p pre ih =>
    intro db
    rw [List.cons_append]
    simp only [saveLoop]
    by_cases hp : resolveIdentity p ∈ seen
    · rw [if_pos hp]
      exact ih _
    · rw [if_neg hp]
      by_cases hc : insertConflict db p.url = true
      · rw [if_pos hc]
      · rw [if_neg hc]
        rw [ih (db ++ [insertRow p now])]
        rfl

/-- Claim C9: when a single `save_listings` call receives two records
with the same non-empty url that is absent from the pre-call seen-set
(so, the seen-set not being refreshed inside the loop, both are
classified as new), the second INSERT violates the UNIQUE constraint on
the `url` column: the call raises instead of returning a new-listings
list, the records after the duplicate are never processed, and — the
commit sitting after the loop — no insert or update of the call
is committed (the error result of the model carries no table state: the
committed table stays `db`). -/
theorem c9_duplicate_url_raises (db : List Row) (pre mid post : List Listing)
    (a b : Listing) (u now : String)
    (ha : a.url = some u) (hb : b.url = some u) (hu : u ≠ "")
    (hnew : u ∉ get_seen_listing_urls db) :
    save_listings db (pre ++ a :: (mid ++ b :: post)) now = Except.error () :=
  saveLoop_dup_after (get_seen_listing_urls db) now u hu hnew a b mid post
    ha hb pre db

/-- Witness for C9: two copies of the same url-bearing record in one
call against an empty table raise. -/
theorem c9_duplicate_url_raises_witness :
    save_listings [] [urlListing, urlListing] "t3" = Except.error () :=
  c9_duplicate_url_raises [] [] [] [] urlListing urlListing "u1" "t3"
    rfl rfl (by decide) (by simp [get_seen_listing_urls])

set_option maxRecDepth 10000 in
/-- Claim C1 evaluated at the failing input (code bug): one record with
no url and raw text "xyz" resolves to identity "xyz" and is returned as
new, but the INSERT stores `listing.get("url")` — NULL — instead of the
resolved identity, so after the call `get_seen_listing_urls` is empty
and is not a superset of the resolved identity of the input. -/
theorem c1_fallback_identity_not_recorded :
    save_listings [] [urllessListing] "t1" =
      Except.ok ([insertRow urllessListing "t1"], [urllessListing]) ∧
    resolveIdentity urllessListing = "xyz" ∧
    get_seen_listing_urls [insertRow urllessListing "t1"] = [] :=
  ⟨rfl, rfl, rfl⟩

set_option maxRecDepth 10000 in
/-- Claim C2 evaluated at the failing input (code bug): calling
`save_listings` twice with the same url-less record returns it as new
both times and grows the table from one row to two; the `last_seen` of the first row stays "t1" instead of advancing. -/
theorem c2_reingest_duplicates_urlless_row :
    save_listings [] [urllessListing] "t1" =
      Except.ok ([insertRow urllessListing "t1"], [urllessListing]) ∧
    save_listings [insertRow urllessListing "t1"] [urllessListing] "t2" =
      Except.ok ([insertRow urllessListing "t1", insertRow urllessListing "t2"],
        [urllessListing]) ∧
    ([insertRow urllessListing "t1", insertRow urllessListing "t2"] : List Row).length = 2 ∧
    (insertRow urllessListing "t1").last_seen = "t1" :=
  ⟨rfl, rfl, rfl, rfl⟩

end Tracker
